import Mathlib

/-!
Verification of the KYC verification pipeline (`app/main.py` and
`app/services/*`) against its natural-language specification.

The pipeline's numeric values (Python floats) are modelled as exact
rationals (`ℚ`); Python `Optional[str]` is `Option String`; a fallible
external call is an `Except` value.  Image-processing and network code is
out of scope: the pipeline is embedded from the point where its numeric
and string inputs are available (the face-similarity score, the liveness
score, the OCR confidence, the parsed sanctions records, the MRZ/OCR
field records and the caller-supplied form fields), exactly as
`kyc_verify` in `app/main.py` consumes them.
-/

namespace KYC

/-- `app/config.py`, class `Settings`: environment-driven configuration
with the defaults given there (face 0.35, liveness 0.35, top-K 5,
sanctions flag threshold 0.85). -/
structure Settings where
  FACE_PASS_THRESHOLD : ℚ := 35/100
  LIVENESS_PASS_THRESHOLD : ℚ := 35/100
  OPEN_SANCTIONS_API_KEY : Option String := none
  SANCTIONS_TOPK : Nat := 5
  SANCTIONS_FLAG_THRESHOLD : ℚ := 85/100

/-- The `Settings()` instance with every field at its default. -/
def defaultSettings : Settings := {}

/-- `app/services/ocr.py`, dataclass `ParsedFields`: the optional string
fields produced by the MRZ parser and by the OCR extractor. -/
structure ParsedFields where
  full_name : Option String := none
  dob : Option String := none
  document_number : Option String := none
  nationality : Option String := none
  expiry_date : Option String := none
  address : Option String := none

/-- `app/schemas.py`, class `ExtractedFields`. -/
structure ExtractedFields where
  full_name : Option String := none
  dob : Option String := none
  document_number : Option String := none
  nationality : Option String := none
  expiry_date : Option String := none
  address : Option String := none
  source : String := "ocr"

/-- `app/schemas.py`, class `Scores`. -/
structure Scores where
  face_match : ℚ
  liveness : ℚ
  ocr_confidence : ℚ
  sanctions_match : ℚ
  overall : ℚ

/-- `app/schemas.py`, class `SanctionsMatch`. -/
structure SanctionsMatch where
  id : Option String := none
  name : Option String := none
  country : Option String := none
  dataset : Option String := none
  schema : Option String := none
  score : Option ℚ := none
  link : Option String := none

/-- `app/schemas.py`, class `KycResult`. -/
structure KycResult where
  extracted : ExtractedFields
  scores : Scores
  sanctions_matches : List SanctionsMatch
  passed : Bool
  reason : String

/-- Python truthiness of an `Optional[str]`: `None` and the empty string
are falsy, any other string is truthy. -/
def truthy : Option String → Bool
  | none => false
  | some s => !(s == "")

/-- Python `a or b` on `Optional[str]` values: `a` when `a` is truthy,
otherwise `b` (returned as-is, even when also falsy). -/
def pyOr (a b : Option String) : Option String :=
  if truthy a then a else b

/-- `max(0.0, min(1.0, x))`, the clamp used throughout `kyc_verify`. -/
def clamp01 (x : ℚ) : ℚ := max 0 (min 1 x)

/-- `app/main.py` lines 80-88: the `ExtractedFields(...)` construction
merging MRZ fields, OCR fields and the caller-supplied `full_name`/`dob`
form values with Python `or` chains (left associative, as in the source). -/
def mergeExtracted (mrz ocr : ParsedFields) (full_name dob : Option String) :
    ExtractedFields where
  full_name := pyOr (pyOr mrz.full_name ocr.full_name) full_name
  dob := pyOr (pyOr mrz.dob ocr.dob) dob
  document_number := pyOr mrz.document_number ocr.document_number
  nationality := pyOr mrz.nationality ocr.nationality
  expiry_date := pyOr mrz.expiry_date ocr.expiry_date
  address := ocr.address
  source := if truthy mrz.document_number then "mrz" else "ocr"

/-- The sort key of `results.sort(key=lambda m: (m.score or 0.0), ...)` in
`app/services/sanctions.py` line 47: a missing score counts as 0. -/
def sanctionsSortKey (m : SanctionsMatch) : ℚ := m.score.getD 0

/-- Insert `x` into `l` in front of the first element whose key is `≤ key x`.
Building block of the stable descending sort below. -/
def insertDesc {α : Type} (key : α → ℚ) (x : α) : List α → List α
  | [] => [x]
  | y :: ys => if key y ≤ key x then x :: y :: ys else y :: insertDesc key x ys

/-- Stable sort by descending key, modelling Python `list.sort` with
`reverse=True` (Python's sort is stable, and `reverse=True` keeps
equal-key elements in their original order). -/
def sortDesc {α : Type} (key : α → ℚ) : List α → List α
  | [] => []
  | x :: xs => insertDesc key x (sortDesc key xs)

/-- `app/services/sanctions.py` lines 32-48: given the parsed
`SanctionsMatch` records of the service response (the JSON plumbing is out
of scope), `query_opensanctions` returns them sorted by descending
`(score or 0.0)`. -/
def query_opensanctions_results (parsed : List SanctionsMatch) :
    List SanctionsMatch :=
  sortDesc sanctionsSortKey parsed

/-- The `query` object of the OpenSanctions request payload
(`app/services/sanctions.py` lines 17-24). -/
structure MatchQuery where
  name : String
  birthDate : Option String

/-- The OpenSanctions request payload `{query: ..., size: top_k}`
(`app/services/sanctions.py` lines 17-24). -/
structure MatchPayload where
  query : MatchQuery
  size : Nat

/-- `app/services/sanctions.py` lines 17-24: the payload built by
`query_opensanctions` for a given `name`, `birth_date` and `top_k`. -/
def query_opensanctions_payload (name : String) (birth_date : Option String)
    (top_k : Nat) : MatchPayload where
  query := { name := name, birthDate := birth_date }
  size := top_k

/-- `app/main.py` lines 112-117: the call site of `query_opensanctions`
inside `kyc_verify`.  The settings are in scope there (and supply the API
key for the request headers), but the call passes the literal `5` as
`top_k`; `settings.SANCTIONS_TOPK` is not used. -/
def kyc_sanctions_query (_s : Settings) (extracted : ExtractedFields) :
    MatchPayload :=
  query_opensanctions_payload (extracted.full_name.getD "") extracted.dob 5

/-- `app/main.py` lines 107-125: the sanctions step of `kyc_verify`.
`nameTruthy` is the truthiness of `extracted.full_name`; `resp` is the
outcome of the `query_opensanctions` network call (`Except.error` when the
call raises).  Yields `(sanctions_matches, sanctions_score,
sanctions_flag)`: the screener is consulted only for a truthy name, its
result list is the sorted records, the score is the top record's
`score or 0.0`, the flag compares it with `SANCTIONS_FLAG_THRESHOLD`, and
any failure resets all three to the initial `([], 0.0, False)`. -/
def sanctionsStep (s : Settings) (nameTruthy : Bool)
    (resp : Except Unit (List SanctionsMatch)) :
    List SanctionsMatch × ℚ × Bool :=
  if nameTruthy then
    match resp with
    | Except.error _ => ([], 0, false)
    | Except.ok parsed =>
      match query_opensanctions_results parsed with
      | [] => ([], 0, false)
      | top :: rest =>
        let sscore := top.score.getD 0
        (top :: rest, sscore, decide (s.SANCTIONS_FLAG_THRESHOLD ≤ sscore))
  else ([], 0, false)

/-- The inputs `kyc_verify` works from once images have been processed:
the MRZ record, the OCR record with its confidence, the caller-supplied
form fields, the face similarity, the liveness score, and the outcome the
sanctions service call would have. -/
structure KycInput where
  mrz_fields : ParsedFields := {}
  ocr_fields : ParsedFields := {}
  form_full_name : Option String := none
  form_dob : Option String := none
  face_match_score : ℚ := 0
  live_score : ℚ := 0
  ocr_conf : ℚ := 0
  sanctions_response : Except Unit (List SanctionsMatch) := Except.ok []

/-- The merged `extracted` record of `kyc_verify` (`app/main.py` 80-88). -/
def kyc_extracted (inp : KycInput) : ExtractedFields :=
  mergeExtracted inp.mrz_fields inp.ocr_fields inp.form_full_name inp.form_dob

/-- The `(sanctions_matches, sanctions_score, sanctions_flag)` triple of
`kyc_verify` (`app/main.py` 107-125). -/
def kyc_sanctions (s : Settings) (inp : KycInput) :
    List SanctionsMatch × ℚ × Bool :=
  sanctionsStep s (truthy (kyc_extracted inp).full_name) inp.sanctions_response

/-- `app/main.py` line 128: the normalized face component. -/
def face_component (s : Settings) (face_match_score : ℚ) : ℚ :=
  clamp01 ((face_match_score - s.FACE_PASS_THRESHOLD + 1/5) / (1/5))

/-- `app/main.py` lines 101-158: the aggregation and decision part of
`kyc_verify`, from the extracted fields and the component scores to the
returned `KycResult`. -/
def kyc_verify (s : Settings) (inp : KycInput) : KycResult :=
  let extracted := kyc_extracted inp
  let sres := kyc_sanctions s inp
  let sanctions_score := sres.2.1
  let sanctions_flag := sres.2.2
  let live_component := clamp01 inp.live_score
  let ocr_component := clamp01 inp.ocr_conf
  let sanctions_component := clamp01 (1 - sanctions_score)
  let overall :=
    55/100 * face_component s inp.face_match_score
      + 20/100 * live_component
      + 15/100 * ocr_component
      + 10/100 * sanctions_component
  { extracted := extracted
    scores :=
      { face_match := inp.face_match_score
        liveness := inp.live_score
        ocr_confidence := inp.ocr_conf
        sanctions_match := sanctions_score
        overall := overall }
    sanctions_matches := sres.1
    passed := decide (s.FACE_PASS_THRESHOLD ≤ inp.face_match_score)
      && decide (s.LIVENESS_PASS_THRESHOLD ≤ inp.live_score)
      && !sanctions_flag
    reason :=
      if sanctions_flag then "sanctions_flag"
      else if inp.face_match_score < s.FACE_PASS_THRESHOLD then "low_face_match"
      else if inp.live_score < s.LIVENESS_PASS_THRESHOLD then "low_liveness"
      else "ok" }

/-- Modelled from the spec: the reason-code priority list of §4.5
("first match wins": sanctions flag, then low face match, then low
liveness, then ok), to be compared with the code's reason expression. -/
def reasonSpec (sanctions_flag : Bool) (face_match_score faceT live_score liveT : ℚ) :
    String :=
  if sanctions_flag then "sanctions_flag"
  else if face_match_score < faceT then "low_face_match"
  else if live_score < liveT then "low_liveness"
  else "ok"

/-- `app/services/liveness.py` lines 13-37, from the point where the three
image statistics are available: `fm` (variance of the Laplacian),
`sat_mean` (mean saturation already divided by 255) and `hf_ratio` (the
high-frequency energy ratio).  Sharpness is `min(1, fm/150)`, the moire
penalty is `min(1, hf_ratio*1.5)`, and the blend is clamped to `[0,1]`. -/
def liveness_heuristics (fm sat_mean hf_ratio : ℚ) : ℚ :=
  let sharp := min 1 (fm / 150)
  let moire_penalty := min 1 (hf_ratio * (3/2))
  clamp01 (6/10 * sharp + 3/10 * sat_mean - 3/10 * moire_penalty)

/-- `app/services/ocr.py` lines 55-66 and 102: each per-image average
confidence is clamped to `[0,100]` and divided by 100, and the returned
confidence is the maximum of those values, or `0.4` when there are none. -/
def extract_text_conf (avgs : List ℚ) : ℚ :=
  let confs := avgs.map (fun a => max 0 (min 100 a) / 100)
  match confs with
  | [] => 2/5
  | c :: cs => cs.foldl max c

/-- The record list carried by a sanctions-service outcome (empty on
failure); used to state hypotheses about the service's scores. -/
def respList (resp : Except Unit (List SanctionsMatch)) : List SanctionsMatch :=
  match resp with
  | Except.error _ => []
  | Except.ok l => l

/-! ### Helper lemmas about the clamp -/

lemma clamp01_nonneg (x : ℚ) : 0 ≤ clamp01 x := le_max_left 0 _

lemma clamp01_le_one (x : ℚ) : clamp01 x ≤ 1 :=
  max_le (by norm_num) (min_le_left 1 x)

lemma clamp01_of_nonpos {x : ℚ} (h : x ≤ 0) : clamp01 x = 0 := by
  unfold clamp01
  rw [min_eq_right (le_trans h (by norm_num)), max_eq_left h]

lemma clamp01_of_one_le {x : ℚ} (h : 1 ≤ x) : clamp01 x = 1 := by
  unfold clamp01
  rw [min_eq_left h, max_eq_right (by norm_num)]

/-! ### Helper lemmas about the stable descending sort -/

lemma insertDesc_perm {α : Type} (key : α → ℚ) (x : α) (l : List α) :
    List.Perm (insertDesc key x l) (x :: l) := by
  induction l with
  | nil => exact List.Perm.refl _
  | cons y ys ih =>
    by_cases h : key y ≤ key x
    · simp [insertDesc, h]
    · simp only [insertDesc, if_neg h]
      exact (ih.cons y).trans (List.Perm.swap x y ys)

lemma sortDesc_perm {α : Type} (key : α → ℚ) (l : List α) :
    List.Perm (sortDesc key l) l := by
  induction l with
  | nil => exact List.Perm.refl _
  | cons x xs ih => exact (insertDesc_perm key x (sortDesc key xs)).trans (ih.cons x)

lemma mem_insertDesc {α : Type} {key : α → ℚ} {x z : α} {l : List α} :
    z ∈ insertDesc key x l ↔ z = x ∨ z ∈ l := by
  have h := (insertDesc_perm key x l).mem_iff (a := z)
  simpa using h

lemma insertDesc_pairwise {α : Type} (key : α → ℚ) (x : α) {l : List α}
    (h : l.Pairwise (fun a b => key b ≤ key a)) :
    (insertDesc key x l).Pairwise (fun a b => key b ≤ key a) := by
  induction l with
  | nil => simp [insertDesc]
  | cons y ys ih =>
    rcases List.pairwise_cons.mp h with ⟨hy, hys⟩
    by_cases hxy : key y ≤ key x
    · simp only [insertDesc, if_pos hxy]
      refine List.pairwise_cons.mpr ⟨?_, h⟩
      intro z hz
      rcases List.mem_cons.mp hz with rfl | hz
      · exact hxy
      · exact le_trans (hy z hz) hxy
    · simp only [insertDesc, if_neg hxy]
      refine List.pairwise_cons.mpr ⟨?_, ih hys⟩
      intro z hz
      rcases mem_insertDesc.mp hz with rfl | hz
      · exact le_of_lt (lt_of_not_le hxy)
      · exact hy z hz

lemma sortDesc_pairwise {α : Type} (key : α → ℚ) (l : List α) :
    (sortDesc key l).Pairwise (fun a b => key b ≤ key a) := by
  induction l with
  | nil => simp [sortDesc]
  | cons x xs ih => exact insertDesc_pairwise key x ih

lemma insertDesc_filter {α : Type} (key : α → ℚ) (c : ℚ) (x : α) (l : List α) :
    (insertDesc key x l).filter (fun z => decide (key z = c)) =
      if key x = c then x :: l.filter (fun z => decide (key z = c))
      else l.filter (fun z => decide (key z = c)) := by
  induction l with
  | nil => by_cases hx : key x = c <;> simp [insertDesc, hx]
  | cons y ys ih =>
    by_cases hxy : key y ≤ key x
    · have he : insertDesc key x (y :: ys) = x :: y :: ys := by
        simp [insertDesc, hxy]
      rw [he]
      by_cases hx : key x = c <;> simp [List.filter_cons, hx]
    · have hlt : key x < key y := lt_of_not_le hxy
      have he : insertDesc key x (y :: ys) = y :: insertDesc key x ys := by
        simp [insertDesc, hxy]
      rw [he]
      by_cases hx : key x = c
      · have hy : ¬ (key y = c) := by
          intro hyc
          rw [hx] at hlt
          rw [hyc] at hlt
          exact lt_irrefl c hlt
        simp [List.filter_cons, hy, ih, hx]
      · simp [List.filter_cons, ih, hx]

lemma sortDesc_filter {α : Type} (key : α → ℚ) (c : ℚ) (l : List α) :
    (sortDesc key l).filter (fun z => decide (key z = c)) =
      l.filter (fun z => decide (key z = c)) := by
  induction l with
  | nil => rfl
  | cons x xs ih =>
    have he : (sortDesc key (x :: xs)).filter (fun z => decide (key z = c)) =
        if key x = c then x :: (sortDesc key xs).filter (fun z => decide (key z = c))
        else (sortDesc key xs).filter (fun z => decide (key z = c)) :=
      insertDesc_filter key c x (sortDesc key xs)
    rw [he, ih, List.filter_cons]
    by_cases hx : key x = c <;> simp [hx]

/-! ### Helper lemmas about the sanctions step and the aggregation -/

lemma sanctionsStep_false (s : Settings) (resp : Except Unit (List SanctionsMatch)) :
    sanctionsStep s false resp = ([], 0, false) := rfl

lemma sanctionsStep_error (s : Settings) (b : Bool) (e : Unit) :
    sanctionsStep s b (Except.error e) = ([], 0, false) := by
  cases b <;> rfl

lemma sanctionsStep_ok_nil (s : Settings) {parsed : List SanctionsMatch}
    (hq : query_opensanctions_results parsed = []) :
    sanctionsStep s true (Except.ok parsed) = ([], 0, false) := by
  simp [sanctionsStep, hq]

lemma sanctionsStep_ok_cons (s : Settings) {parsed : List SanctionsMatch}
    {top : SanctionsMatch} {rest : List SanctionsMatch}
    (hq : query_opensanctions_results parsed = top :: rest) :
    sanctionsStep s true (Except.ok parsed) =
      (top :: rest, top.score.getD 0,
        decide (s.SANCTIONS_FLAG_THRESHOLD ≤ top.score.getD 0)) := by
  simp [sanctionsStep, hq]

lemma sanctionsStep_flag_iff (s : Settings) (b : Bool)
    (resp : Except Unit (List SanctionsMatch))
    (h : 0 < s.SANCTIONS_FLAG_THRESHOLD) :
    ((sanctionsStep s b resp).2.2 = true ↔
      s.SANCTIONS_FLAG_THRESHOLD ≤ (sanctionsStep s b resp).2.1) := by
  have hz : ¬ s.SANCTIONS_FLAG_THRESHOLD ≤ (0 : ℚ) := not_le.mpr h
  cases b with
  | false =>
    rw [sanctionsStep_false]
    exact iff_of_false (by simp) hz
  | true =>
    cases resp with
    | error e =>
      rw [sanctionsStep_error]
      exact iff_of_false (by simp) hz
    | ok parsed =>
      rcases hq : query_opensanctions_results parsed with _ | ⟨top, rest⟩
      · rw [sanctionsStep_ok_nil s hq]
        exact iff_of_false (by simp) hz
      · rw [sanctionsStep_ok_cons s hq]
        simp

lemma sanctionsStep_score_mem (s : Settings) (b : Bool)
    (resp : Except Unit (List SanctionsMatch))
    (h : ∀ m ∈ respList resp, ∀ q : ℚ, m.score = some q → 0 ≤ q ∧ q ≤ 1) :
    0 ≤ (sanctionsStep s b resp).2.1 ∧ (sanctionsStep s b resp).2.1 ≤ 1 := by
  cases b with
  | false =>
    rw [sanctionsStep_false]
    norm_num
  | true =>
    cases resp with
    | error e =>
      rw [sanctionsStep_error]
      norm_num
    | ok parsed =>
      rcases hq : query_opensanctions_results parsed with _ | ⟨top, rest⟩
      · rw [sanctionsStep_ok_nil s hq]
        norm_num
      · rw [sanctionsStep_ok_cons s hq]
        have htop : top ∈ parsed := by
          have hmem : top ∈ query_opensanctions_results parsed := by
            rw [hq]
            exact List.mem_cons_self top rest
          exact (sortDesc_perm sanctionsSortKey parsed).mem_iff.mp hmem
        rcases hsc : top.score with _ | q
        · simp [hsc]
        · have hb := h top htop q hsc
          simpa [hsc] using hb

lemma liveness_heuristics_mem (fm sat_mean hf_ratio : ℚ) :
    0 ≤ liveness_heuristics fm sat_mean hf_ratio ∧
      liveness_heuristics fm sat_mean hf_ratio ≤ 1 :=
  ⟨clamp01_nonneg _, clamp01_le_one _⟩

lemma foldl_max_mem : ∀ (cs : List ℚ) (c : ℚ), 0 ≤ c → c ≤ 1 →
    (∀ x ∈ cs, 0 ≤ x ∧ x ≤ 1) → 0 ≤ cs.foldl max c ∧ cs.foldl max c ≤ 1 := by
  intro cs
  induction cs with
  | nil =>
    intro c h0 h1 _
    exact ⟨h0, h1⟩
  | cons x xs ih =>
    intro c h0 h1 hall
    have hx := hall x (List.mem_cons_self x xs)
    refine ih (max c x) (le_trans h0 (le_max_left c x)) (max_le h1 hx.2) ?_
    intro y hy
    exact hall y (List.mem_cons_of_mem x hy)

lemma conf_elem_mem (a : ℚ) :
    0 ≤ max 0 (min 100 a) / 100 ∧ max 0 (min 100 a) / 100 ≤ 1 := by
  constructor
  · exact div_nonneg (le_max_left 0 _) (by norm_num)
  · rw [div_le_one (show (0:ℚ) < 100 by norm_num)]
    exact max_le (by norm_num) (min_le_left 100 a)

lemma extract_text_conf_mem (avgs : List ℚ) :
    0 ≤ extract_text_conf avgs ∧ extract_text_conf avgs ≤ 1 := by
  cases avgs with
  | nil => constructor <;> norm_num [extract_text_conf]
  | cons a as =>
    have he : extract_text_conf (a :: as) =
        (as.map (fun x => max 0 (min 100 x) / 100)).foldl max
          (max 0 (min 100 a) / 100) := rfl
    rw [he]
    refine foldl_max_mem _ _ (conf_elem_mem a).1 (conf_elem_mem a).2 ?_
    intro y hy
    rcases List.mem_map.mp hy with ⟨x, _, rfl⟩
    exact conf_elem_mem x

lemma kyc_scores_sanctions (s : Settings) (inp : KycInput) :
    (kyc_verify s inp).scores.sanctions_match = (kyc_sanctions s inp).2.1 := rfl

lemma kyc_passed_eq (s : Settings) (inp : KycInput) :
    (kyc_verify s inp).passed =
      (decide (s.FACE_PASS_THRESHOLD ≤ inp.face_match_score)
        && decide (s.LIVENESS_PASS_THRESHOLD ≤ inp.live_score)
        && !(kyc_sanctions s inp).2.2) := rfl

lemma face_component_nonneg (s : Settings) (x : ℚ) : 0 ≤ face_component s x :=
  clamp01_nonneg _

lemma face_component_le_one (s : Settings) (x : ℚ) : face_component s x ≤ 1 :=
  clamp01_le_one _

lemma kyc_overall_eq (s : Settings) (inp : KycInput) :
    (kyc_verify s inp).scores.overall =
      55/100 * face_component s inp.face_match_score
        + 20/100 * clamp01 inp.live_score
        + 15/100 * clamp01 inp.ocr_conf
        + 10/100 * clamp01 (1 - (kyc_sanctions s inp).2.1) := rfl

lemma kyc_overall_mem (s : Settings) (inp : KycInput) :
    0 ≤ (kyc_verify s inp).scores.overall ∧ (kyc_verify s inp).scores.overall ≤ 1 := by
  rw [kyc_overall_eq]
  have ha1 := face_component_nonneg s inp.face_match_score
  have ha2 := face_component_le_one s inp.face_match_score
  have hb1 := clamp01_nonneg inp.live_score
  have hb2 := clamp01_le_one inp.live_score
  have hc1 := clamp01_nonneg inp.ocr_conf
  have hc2 := clamp01_le_one inp.ocr_conf
  have hd1 := clamp01_nonneg (1 - (kyc_sanctions s inp).2.1)
  have hd2 := clamp01_le_one (1 - (kyc_sanctions s inp).2.1)
  constructor <;> linarith

/-! ### Concrete inputs used by the witness theorems -/

/-- A request whose face, liveness and OCR inputs are 0.5 and whose
sanctions screening finds no match. -/
def wGate : KycInput :=
  { form_full_name := some "Jane Roe"
    face_match_score := 1/2
    live_score := 1/2
    ocr_conf := 1/2
    sanctions_response := Except.ok [] }

/-- The spec's reason-priority scenario: face 0.10, liveness 0.90, best
sanctions score 0.95. -/
def wReason : KycInput :=
  { form_full_name := some "John Doe"
    face_match_score := 1/10
    live_score := 9/10
    ocr_conf := 1/2
    sanctions_response := Except.ok [{ score := some (95/100) }] }

/-- A request with no name from any source (the sanctions service would
report a strong match if it were asked). -/
def wNoName : KycInput :=
  { face_match_score := 1/2
    live_score := 1/2
    ocr_conf := 4/10
    sanctions_response := Except.ok [{ score := some (99/100) }] }

/-- A request whose face similarity (a cosine similarity) is negative. -/
def wNegFace : KycInput :=
  { form_full_name := some "Jane Roe"
    face_match_score := -(1/10)
    live_score := 1/2
    ocr_conf := 1/2
    sanctions_response := Except.ok [] }

/-! ### The claims -/

/-- C1: a returned `KycResult` has `passed = true` exactly when the raw
face similarity reaches the face-pass threshold, the raw liveness score
reaches the liveness-pass threshold, and the best sanctions score (the
`sanctions_match` field, 0 when there is none) is below the
sanctions-flag threshold; the normalized components and `overall` do not
appear in the decision.  Stated for any positive flag threshold. -/
theorem passed_iff_raw_gates (s : Settings) (inp : KycInput)
    (h : 0 < s.SANCTIONS_FLAG_THRESHOLD) :
    ((kyc_verify s inp).passed = true ↔
      (s.FACE_PASS_THRESHOLD ≤ inp.face_match_score ∧
        s.LIVENESS_PASS_THRESHOLD ≤ inp.live_score ∧
        ¬ s.SANCTIONS_FLAG_THRESHOLD ≤ (kyc_verify s inp).scores.sanctions_match)) := by
  rw [kyc_passed_eq, kyc_scores_sanctions]
  have hf : ((kyc_sanctions s inp).2.2 = true ↔
      s.SANCTIONS_FLAG_THRESHOLD ≤ (kyc_sanctions s inp).2.1) :=
    sanctionsStep_flag_iff s (truthy (kyc_extracted inp).full_name)
      inp.sanctions_response h
  simp only [Bool.and_eq_true, decide_eq_true_eq, Bool.not_eq_true']
  constructor
  · rintro ⟨⟨hA, hB⟩, hflag⟩
    refine ⟨hA, hB, ?_⟩
    intro hle
    rw [hf.mpr hle] at hflag
    cases hflag
  · rintro ⟨hA, hB, hns⟩
    refine ⟨⟨hA, hB⟩, ?_⟩
    cases hfl : (kyc_sanctions s inp).2.2
    · rfl
    · exact absurd (hf.mp hfl) hns

/-- Witness for C1 at the concrete request `wGate` under the default
configuration. -/
theorem passed_iff_raw_gates_witness :
    0 < defaultSettings.SANCTIONS_FLAG_THRESHOLD ∧
      ((kyc_verify defaultSettings wGate).passed = true ↔
        (defaultSettings.FACE_PASS_THRESHOLD ≤ wGate.face_match_score ∧
          defaultSettings.LIVENESS_PASS_THRESHOLD ≤ wGate.live_score ∧
          ¬ defaultSettings.SANCTIONS_FLAG_THRESHOLD ≤
              (kyc_verify defaultSettings wGate).scores.sanctions_match)) :=
  ⟨by norm_num [defaultSettings],
    passed_iff_raw_gates defaultSettings wGate (by norm_num [defaultSettings])⟩

/-- C2: the reason code of a returned `KycResult` is chosen
first-match-wins in the priority order sanctions flag, low face match,
low liveness, ok; in particular a set sanctions flag always yields
`"sanctions_flag"`, even when the face match is also low. -/
theorem reason_priority (s : Settings) (inp : KycInput) :
    (kyc_verify s inp).reason =
      reasonSpec (kyc_sanctions s inp).2.2 inp.face_match_score
        s.FACE_PASS_THRESHOLD inp.live_score s.LIVENESS_PASS_THRESHOLD ∧
    ((kyc_sanctions s inp).2.2 = true →
      (kyc_verify s inp).reason = "sanctions_flag") := by
  constructor
  · rfl
  · intro hflag
    show (if (kyc_sanctions s inp).2.2 = true then "sanctions_flag"
      else if inp.face_match_score < s.FACE_PASS_THRESHOLD then "low_face_match"
      else if inp.live_score < s.LIVENESS_PASS_THRESHOLD then "low_liveness"
      else "ok") = "sanctions_flag"
    rw [if_pos hflag]

/-- Witness for C2 at the spec's reason-priority scenario: face 0.10
(below threshold), liveness 0.90, best sanctions score 0.95 (above the
flag threshold); the reason is `"sanctions_flag"`. -/
theorem reason_priority_witness :
    (kyc_sanctions defaultSettings wReason).2.2 = true ∧
      (kyc_verify defaultSettings wReason).reason = "sanctions_flag" := by
  have hq : query_opensanctions_results [({ score := some (95/100) } : SanctionsMatch)]
      = [({ score := some (95/100) } : SanctionsMatch)] := rfl
  have h1 : kyc_sanctions defaultSettings wReason =
      sanctionsStep defaultSettings true
        (Except.ok [({ score := some (95/100) } : SanctionsMatch)]) := rfl
  have hflag : (kyc_sanctions defaultSettings wReason).2.2 = true := by
    rw [h1, sanctionsStep_ok_cons defaultSettings hq]
    norm_num [defaultSettings]
  exact ⟨hflag, (reason_priority defaultSettings wReason).2 hflag⟩

/-- C3: when the sanctions call fails, the pipeline still produces a
`KycResult` with an empty match list, a zero `sanctions_match` score and
an unset sanctions flag, and `passed` reduces to the face and liveness
gates alone (the failure is absorbed, never propagated: `kyc_verify` is
total). -/
theorem sanctions_failure_degrades (s : Settings) (inp : KycInput) (e : Unit) :
    (kyc_verify s { inp with sanctions_response := Except.error e }).sanctions_matches = [] ∧
    (kyc_verify s { inp with sanctions_response := Except.error e }).scores.sanctions_match = 0 ∧
    (kyc_sanctions s { inp with sanctions_response := Except.error e }).2.2 = false ∧
    (kyc_verify s { inp with sanctions_response := Except.error e }).passed =
      (decide (s.FACE_PASS_THRESHOLD ≤ inp.face_match_score)
        && decide (s.LIVENESS_PASS_THRESHOLD ≤ inp.live_score)) := by
  have hs : kyc_sanctions s { inp with sanctions_response := Except.error e } =
      ([], 0, false) := by
    show sanctionsStep s _ (Except.error e) = ([], 0, false)
    exact sanctionsStep_error s _ e
  refine ⟨?_, ?_, ?_, ?_⟩
  · show (kyc_sanctions s { inp with sanctions_response := Except.error e }).1 = []
    rw [hs]
  · rw [kyc_scores_sanctions, hs]
  · rw [hs]
  · rw [kyc_passed_eq, hs]
    simp

/-- C4: `overall` is the fixed weighted sum
`0.55·face + 0.20·liveness + 0.15·ocr + 0.10·sanctions` of the four
clamped components (the sanctions component being the clamp of one minus
the best sanctions score), and it always lies in `[0,1]`. -/
theorem overall_weighted_sum_mem (s : Settings) (inp : KycInput) :
    (kyc_verify s inp).scores.overall =
      55/100 * clamp01 ((inp.face_match_score - s.FACE_PASS_THRESHOLD + 1/5) / (1/5))
        + 20/100 * clamp01 inp.live_score
        + 15/100 * clamp01 inp.ocr_conf
        + 10/100 * clamp01 (1 - (kyc_verify s inp).scores.sanctions_match) ∧
    0 ≤ (kyc_verify s inp).scores.overall ∧
    (kyc_verify s inp).scores.overall ≤ 1 :=
  ⟨rfl, kyc_overall_mem s inp⟩

/-- C5 counterexample: the `face_match` field of a returned `KycResult` is
the raw cosine similarity, which `kyc_verify` never clamps; a request
whose similarity is `-0.1` (cosine similarity of two embeddings can be
negative, as §4.2 of the spec itself notes) yields a `Scores` record with
`face_match` outside `[0,1]`. -/
theorem scores_face_match_negative :
    (kyc_verify defaultSettings wNegFace).scores.face_match = -(1/10) ∧
    ¬ (0 ≤ (kyc_verify defaultSettings wNegFace).scores.face_match ∧
        (kyc_verify defaultSettings wNegFace).scores.face_match ≤ 1) := by
  have he : (kyc_verify defaultSettings wNegFace).scores.face_match = -(1/10) := rfl
  refine ⟨he, ?_⟩
  rw [he]
  rintro ⟨h0, _⟩
  norm_num at h0

/-- C5 (amended): in every returned `KycResult`, `liveness`,
`ocr_confidence`, `sanctions_match` and `overall` lie in `[0,1]` —
`liveness` and `ocr_confidence` because the upstream scorers deliver
values in `[0,1]` (see `liveness_heuristics` and `extract_text_conf`),
`sanctions_match` provided the screening service reports scores in
`[0,1]`; `face_match`, however, is the raw cosine similarity passed
through unclamped and may be negative. -/
theorem scores_mem_amended (s : Settings) (inp : KycInput)
    (hl1 : 0 ≤ inp.live_score) (hl2 : inp.live_score ≤ 1)
    (ho1 : 0 ≤ inp.ocr_conf) (ho2 : inp.ocr_conf ≤ 1)
    (hsc : ∀ m ∈ respList inp.sanctions_response, ∀ q : ℚ,
      m.score = some q → 0 ≤ q ∧ q ≤ 1) :
    (kyc_verify s inp).scores.face_match = inp.face_match_score ∧
    (0 ≤ (kyc_verify s inp).scores.liveness ∧
      (kyc_verify s inp).scores.liveness ≤ 1) ∧
    (0 ≤ (kyc_verify s inp).scores.ocr_confidence ∧
      (kyc_verify s inp).scores.ocr_confidence ≤ 1) ∧
    (0 ≤ (kyc_verify s inp).scores.sanctions_match ∧
      (kyc_verify s inp).scores.sanctions_match ≤ 1) ∧
    (0 ≤ (kyc_verify s inp).scores.overall ∧
      (kyc_verify s inp).scores.overall ≤ 1) := by
  refine ⟨rfl, ⟨hl1, hl2⟩, ⟨ho1, ho2⟩, ?_, kyc_overall_mem s inp⟩
  rw [kyc_scores_sanctions]
  exact sanctionsStep_score_mem s _ _ hsc

/-- Witness for C5 (amended) at the concrete request `wGate`. -/
theorem scores_mem_amended_witness :
    (kyc_verify defaultSettings wGate).scores.face_match = wGate.face_match_score ∧
    (0 ≤ (kyc_verify defaultSettings wGate).scores.liveness ∧
      (kyc_verify defaultSettings wGate).scores.liveness ≤ 1) ∧
    (0 ≤ (kyc_verify defaultSettings wGate).scores.ocr_confidence ∧
      (kyc_verify defaultSettings wGate).scores.ocr_confidence ≤ 1) ∧
    (0 ≤ (kyc_verify defaultSettings wGate).scores.sanctions_match ∧
      (kyc_verify defaultSettings wGate).scores.sanctions_match ≤ 1) ∧
    (0 ≤ (kyc_verify defaultSettings wGate).scores.overall ∧
      (kyc_verify defaultSettings wGate).scores.overall ≤ 1) :=
  scores_mem_amended defaultSettings wGate
    (by norm_num [wGate]) (by norm_num [wGate])
    (by norm_num [wGate]) (by norm_num [wGate])
    (by intro m hm q hq; simp [wGate, respList] at hm)

/-- C6: the face component equals
`clamp((face − face_pass_threshold + 0.2) / 0.2, 0, 1)`; it is exactly 1
when the similarity sits exactly at the threshold, and exactly 0 when the
similarity is at most threshold − 0.2. -/
theorem face_component_spec (s : Settings) (x : ℚ) :
    face_component s x = clamp01 ((x - s.FACE_PASS_THRESHOLD + 1/5) / (1/5)) ∧
    (x = s.FACE_PASS_THRESHOLD → face_component s x = 1) ∧
    (x ≤ s.FACE_PASS_THRESHOLD - 1/5 → face_component s x = 0) := by
  refine ⟨rfl, ?_, ?_⟩
  · rintro rfl
    unfold face_component
    rw [sub_self, zero_add, show ((1:ℚ)/5) / (1/5) = 1 by norm_num]
    exact clamp01_of_one_le le_rfl
  · intro hx
    unfold face_component
    apply clamp01_of_nonpos
    rw [div_le_iff₀ (show (0:ℚ) < 1/5 by norm_num)]
    linarith

/-- Witness for C6: with the default threshold 0.35, a similarity of 0.35
gives component 1 and a similarity of 0.10 gives component 0. -/
theorem face_component_spec_witness :
    face_component defaultSettings (35/100) = 1 ∧
      face_component defaultSettings (1/10) = 0 :=
  ⟨(face_component_spec defaultSettings (35/100)).2.1 (by norm_num [defaultSettings]),
    (face_component_spec defaultSettings (1/10)).2.2 (by norm_num [defaultSettings])⟩

/-- A configuration in which the environment sets `SANCTIONS_TOPK=10`. -/
def topk10 : Settings := { SANCTIONS_TOPK := 10 }

/-- An extracted record with a (truthy) full name, so the sanctions
screener is invoked. -/
def exNamed : ExtractedFields := { full_name := some "John Doe" }

/-- C7 (code bug): `kyc_verify` passes the literal `5` as `top_k` to
`query_opensanctions` (`app/main.py` line 116), so the `size` field of
the screening payload is always 5; the environment-driven
`Settings.SANCTIONS_TOPK` (here configured to 10) is never consulted. -/
theorem sanctions_query_size_hardcoded :
    (kyc_sanctions_query topk10 exNamed).size = 5 ∧
    topk10.SANCTIONS_TOPK = 10 ∧
    (kyc_sanctions_query topk10 exNamed).size ≠ topk10.SANCTIONS_TOPK := by
  refine ⟨rfl, rfl, ?_⟩
  decide

/-- Python `a or (b or c)` on optional strings, written as the spec's
merge rule reads it: the first non-empty value in order wins, and when
none is non-empty the last value is returned as-is. -/
lemma pyOr_left_assoc (a b c : Option String) :
    pyOr (pyOr a b) c =
      if truthy a then a else if truthy b then b else c := by
  unfold pyOr
  by_cases ha : truthy a <;> by_cases hb : truthy b <;> simp [ha, hb]

/-- C8: the merged record takes each field as the first non-empty value in
the order MRZ, OCR, caller override — the override existing only for the
full name and the date of birth — takes the address from OCR alone, and
tags `source` as `"mrz"` exactly when the MRZ record produced a (truthy)
document number. -/
theorem merge_first_nonempty (mrz ocr : ParsedFields) (full_name dob : Option String) :
    (mergeExtracted mrz ocr full_name dob).full_name =
      (if truthy mrz.full_name then mrz.full_name
       else if truthy ocr.full_name then ocr.full_name else full_name) ∧
    (mergeExtracted mrz ocr full_name dob).dob =
      (if truthy mrz.dob then mrz.dob
       else if truthy ocr.dob then ocr.dob else dob) ∧
    (mergeExtracted mrz ocr full_name dob).document_number =
      (if truthy mrz.document_number then mrz.document_number
       else ocr.document_number) ∧
    (mergeExtracted mrz ocr full_name dob).nationality =
      (if truthy mrz.nationality then mrz.nationality else ocr.nationality) ∧
    (mergeExtracted mrz ocr full_name dob).expiry_date =
      (if truthy mrz.expiry_date then mrz.expiry_date else ocr.expiry_date) ∧
    (mergeExtracted mrz ocr full_name dob).address = ocr.address ∧
    ((mergeExtracted mrz ocr full_name dob).source = "mrz" ↔
      truthy mrz.document_number = true) := by
  refine ⟨pyOr_left_assoc mrz.full_name ocr.full_name full_name,
    pyOr_left_assoc mrz.dob ocr.dob dob, rfl, rfl, rfl, rfl, ?_⟩
  show (if truthy mrz.document_number then "mrz" else "ocr") = "mrz" ↔
    truthy mrz.document_number = true
  by_cases h : truthy mrz.document_number <;> simp [h]

/-- C9: `query_opensanctions` returns the service's candidate records
sorted by descending score, with an absent score counted as 0 for the
ordering only; equal-key candidates keep their encounter order (every
per-key subsequence is preserved), and the output is a permutation of the
input records (so each record, and in particular an absent score, is
carried over unchanged). -/
theorem sanctions_sorted_stable (parsed : List SanctionsMatch) :
    (query_opensanctions_results parsed).Pairwise
      (fun a b => sanctionsSortKey b ≤ sanctionsSortKey a) ∧
    (∀ c : ℚ, (query_opensanctions_results parsed).filter
        (fun m => decide (sanctionsSortKey m = c)) =
      parsed.filter (fun m => decide (sanctionsSortKey m = c))) ∧
    List.Perm (query_opensanctions_results parsed) parsed :=
  ⟨sortDesc_pairwise sanctionsSortKey parsed,
    fun c => sortDesc_filter sanctionsSortKey c parsed,
    sortDesc_perm sanctionsSortKey parsed⟩

/-- C10: when no source yields a (truthy) full name, the sanctions
service is never consulted — the result does not depend on what the
service would have answered — and the result carries an empty match list,
a zero sanctions score and an unset flag, so `passed` reduces to the face
and liveness gates. -/
theorem empty_name_skips_sanctions (s : Settings) (inp : KycInput)
    (h : truthy (kyc_extracted inp).full_name = false) :
    (∀ r : Except Unit (List SanctionsMatch),
      kyc_verify s { inp with sanctions_response := r } = kyc_verify s inp) ∧
    (kyc_verify s inp).sanctions_matches = [] ∧
    (kyc_verify s inp).scores.sanctions_match = 0 ∧
    (kyc_sanctions s inp).2.2 = false ∧
    (kyc_verify s inp).passed =
      (decide (s.FACE_PASS_THRESHOLD ≤ inp.face_match_score)
        && decide (s.LIVENESS_PASS_THRESHOLD ≤ inp.live_score)) := by
  have hks : ∀ r : Except Unit (List SanctionsMatch),
      kyc_sanctions s { inp with sanctions_response := r } = ([], 0, false) := by
    intro r
    show sanctionsStep s (truthy (kyc_extracted inp).full_name) r = ([], 0, false)
    rw [h]
    exact sanctionsStep_false s r
  have hks0 : kyc_sanctions s inp = ([], 0, false) := by
    show sanctionsStep s (truthy (kyc_extracted inp).full_name)
      inp.sanctions_response = ([], 0, false)
    rw [h]
    exact sanctionsStep_false s inp.sanctions_response
  refine ⟨?_, ?_, ?_, ?_, ?_⟩
  · intro r
    simp only [kyc_verify, hks r, hks0]
    rfl
  · show (kyc_sanctions s inp).1 = []
    rw [hks0]
  · rw [kyc_scores_sanctions, hks0]
  · rw [hks0]
  · rw [kyc_passed_eq, hks0]
    simp

/-- Witness for C10 at the concrete request `wNoName`, whose sanctions
service would have reported a 0.99 match had it been asked. -/
theorem empty_name_skips_sanctions_witness :
    kyc_verify defaultSettings { wNoName with sanctions_response := Except.error () }
      = kyc_verify defaultSettings wNoName ∧
    (kyc_verify defaultSettings wNoName).sanctions_matches = [] ∧
    (kyc_verify defaultSettings wNoName).scores.sanctions_match = 0 :=
  ⟨(empty_name_skips_sanctions defaultSettings wNoName rfl).1 (Except.error ()),
    (empty_name_skips_sanctions defaultSettings wNoName rfl).2.1,
    (empty_name_skips_sanctions defaultSettings wNoName rfl).2.2.1⟩

end KYC
